import Mathlib

/-!
Shallow embedding of the token-response processing pipeline of
`src/lib/msal-common/src/response/ResponseHandler.ts` (class `ResponseHandler`):
`validateServerAuthorizationCodeResponse`, `handleServerTokenResponse`,
`generateCacheRecord`, `generateAccountEntity`, `generateAuthenticationResult`.

External collaborators (crypto, `ScopeSet`, entity constructors, the cache
store, the persistence plugin, the proof-of-possession signer) are not part of
the source file; they are modelled either as function parameters or as free
constructors, each documented where it is introduced.

JavaScript string truthiness: `undefined` and `""` are both falsy, so optional
string fields are modelled as `Option String` with emptiness meaning
`(o.getD "") = ""`.
-/

namespace MsalResponse

/-- JS truthiness of an optional string field: `undefined` and `""` are falsy. -/
def strTruthy (o : Option String) : Bool := o.getD "" != ""

/-- JS truthiness of an optional scope string (scope strings are modelled as
character lists so that space-splitting can be reasoned about directly). -/
def chTruthy (o : Option (List Char)) : Bool := o.getD [] != []

/-- The authority type enum (`AuthorityType`); only `Adfs` is inspected by the
source, the other values are the ones the authority descriptor admits. -/
inductive AuthorityType
  | Aad
  | Adfs
  | B2C
  | Generic
  deriving DecidableEq, Repr

/-- The authority descriptor as consumed by `ResponseHandler`:
`authority.authorityType`, `authority.protocolMode`, `authority.tenant`, and
the value of the external `Authority.generateEnvironmentFromAuthority` call,
carried as the `environment` field. -/
structure Authority where
  authorityType : AuthorityType
  protocolMode : String
  tenant : String
  environment : String
  deriving DecidableEq, Repr

/-- Parsed identity-token claims (`idTokenObj.claims`): the fields the pipeline
reads are `oid`, `sub`, `tid`, `nonce`. -/
structure TokenClaims where
  oid : Option String := none
  sub : Option String := none
  tid : Option String := none
  nonce : Option String := none
  deriving DecidableEq, Repr

/-- The parsed identity token (`AuthToken`): raw string plus claims.  JWT
decoding is external, so the claims are produced by a caller-supplied parse
function. -/
structure AuthToken where
  rawToken : String
  claims : TokenClaims
  deriving DecidableEq, Repr

/-- The token-endpoint response (`ServerAuthorizationTokenResponse`), the
fields this pipeline reads.  `scope` is a space-delimited scope string,
modelled as a character list. -/
structure ServerAuthorizationTokenResponse where
  access_token : Option String := none
  id_token : Option String := none
  refresh_token : Option String := none
  token_type : Option String := none
  scope : Option (List Char) := none
  expires_in : Option Nat := none
  ext_expires_in : Option Nat := none
  client_info : Option String := none
  foci : Option String := none
  deriving DecidableEq, Repr

/-- The authorization-code response (`ServerAuthorizationCodeResponse`), the
fields read by `validateServerAuthorizationCodeResponse`. -/
structure ServerAuthorizationCodeResponse where
  state : Option String := none
  error : Option String := none
  error_description : Option String := none
  suberror : Option String := none
  client_info : Option String := none
  deriving DecidableEq, Repr

/-- The flat error taxonomy thrown by the pipeline (`ClientAuthError`,
`ClientConfigurationError`, `InteractionRequiredAuthError`, `ServerError`,
plus a propagated store-write failure). -/
inductive AuthError
  | stateNotFound (missingState : String)
  | stateMismatch
  | nonceMismatch
  | invalidCacheEnvironment
  | clientInfoEmpty
  | clientInfoDecodeFailure (rawClientInfo : String)
  | resourceRequestParametersRequired
  | interactionRequired (error : String) (errorDescription suberror : Option String)
  | serverError (error : String) (errorDescription suberror : Option String)
  | storeWriteFailed
  deriving DecidableEq, Repr

/-- Decoded client info (`ClientInfo`), produced by the external
`buildClientInfo`. -/
structure ClientInfo where
  uid : String
  utid : String
  deriving DecidableEq, Repr

/--
Models `validateServerAuthorizationCodeResponse(serverResponseHash, cachedState, cryptoObj)`.
External inputs: `decode` models the JS builtin `decodeURIComponent`;
`isIRE` models the static allow-list predicate
`InteractionRequiredAuthError.isInteractionRequiredError`; `decodeCI` models
`buildClientInfo` (`none` = decode failure, which propagates as its own error).
-/
def validateServerAuthorizationCodeResponse
    (decode : String → String)
    (isIRE : Option String → Option String → Option String → Bool)
    (decodeCI : String → Option ClientInfo)
    (serverResponseHash : ServerAuthorizationCodeResponse)
    (cachedState : String) : Except AuthError Unit :=
  if !strTruthy serverResponseHash.state || cachedState == "" then
    .error (if !strTruthy serverResponseHash.state then
              .stateNotFound "Server State"
            else .stateNotFound "Cached State")
  else if decode (serverResponseHash.state.getD "") != decode cachedState then
    .error .stateMismatch
  else if strTruthy serverResponseHash.error
      || strTruthy serverResponseHash.error_description
      || strTruthy serverResponseHash.suberror then
    if isIRE serverResponseHash.error serverResponseHash.error_description
        serverResponseHash.suberror then
      .error (.interactionRequired (serverResponseHash.error.getD "")
        serverResponseHash.error_description serverResponseHash.suberror)
    else
      .error (.serverError (serverResponseHash.error.getD "")
        serverResponseHash.error_description serverResponseHash.suberror)
  else if strTruthy serverResponseHash.client_info then
    match decodeCI (serverResponseHash.client_info.getD "") with
    | some _ => .ok ()
    | none => .error (.clientInfoDecodeFailure (serverResponseHash.client_info.getD ""))
  else
    .ok ()

/-- Modelled from the spec: `ScopeSet` (not under `src/`) holds an ordered
sequence of scopes; a space-delimited scope string is split into that sequence
and printed back by joining with a single space. -/
structure ScopeSet where
  scopes : List (List Char)
  deriving DecidableEq, Repr

/-- Split a space-delimited scope string into its pieces (the spec's
"split into an ordered sequence"). -/
def splitScopes : List Char → List (List Char)
  | [] => [[]]
  | c :: cs =>
    if c = ' ' then [] :: splitScopes cs
    else
      match splitScopes cs with
      | [] => [[c]]
      | p :: ps => (c :: p) :: ps

/-- Join scope pieces into a space-delimited scope string. -/
def joinScopes : List (List Char) → List Char
  | [] => []
  | [p] => p
  | p :: q :: ps => p ++ ' ' :: joinScopes (q :: ps)

/-- Modelled from the spec: `ScopeSet.fromString`. -/
def ScopeSet.fromString (s : List Char) : ScopeSet := ⟨splitScopes s⟩

/-- Modelled from the spec: `new ScopeSet(inputScopes)`. -/
def ScopeSet.ofArray (l : List (List Char)) : ScopeSet := ⟨l⟩

/-- Modelled from the spec: `ScopeSet.printScopes` — the stored space-delimited
scope string. -/
def ScopeSet.printScopes (ss : ScopeSet) : List Char := joinScopes ss.scopes

/-- Modelled from the spec: `ScopeSet.asArray`. -/
def ScopeSet.asArray (ss : ScopeSet) : List (List Char) := ss.scopes

theorem splitScopes_ne_nil (s : List Char) : splitScopes s ≠ [] := by
  induction s with
  | nil => simp [splitScopes]
  | cons c cs ih =>
    simp only [splitScopes]
    split
    · simp
    · cases h : splitScopes cs with
      | nil => simp
      | cons p ps => simp

theorem mem_splitScopes_no_space (s : List Char) :
    ∀ p ∈ splitScopes s, ' ' ∉ p := by
  induction s with
  | nil =>
    intro p hp
    simp [splitScopes] at hp
    simp [hp]
  | cons c cs ih =>
    intro p hp
    simp only [splitScopes] at hp
    split at hp
    · rcases List.mem_cons.mp hp with h | h
      · simp [h]
      · exact ih p h
    · rename_i hc
      cases h : splitScopes cs with
      | nil => exact absurd h (splitScopes_ne_nil cs)
      | cons q qs =>
        rw [h] at hp
        rcases List.mem_cons.mp hp with h1 | h1
        · subst h1
          intro hmem
          rcases List.mem_cons.mp hmem with h2 | h2
          · exact hc h2.symm
          · exact ih q (h ▸ List.mem_cons_self q qs) h2
        · exact ih p (h ▸ List.mem_cons_of_mem q h1)

/-- Splitting after prepending a space-free piece and a space peels off the
piece. -/
theorem splitScopes_append_space (p rest : List Char) (hp : ' ' ∉ p) :
    splitScopes (p ++ ' ' :: rest) = p :: splitScopes rest := by
  induction p with
  | nil => simp [splitScopes]
  | cons c cs ih =>
    have hc : c ≠ ' ' := by
      intro h; exact hp (h ▸ List.mem_cons_self c cs)
    have hcs : ' ' ∉ cs := fun h => hp (List.mem_cons_of_mem c h)
    simp only [List.cons_append, splitScopes, if_neg hc, List.append_eq]
    rw [ih hcs]

/-- A space-free scope string splits into itself as the single piece. -/
theorem splitScopes_of_no_space (p : List Char) (hp : ' ' ∉ p) :
    splitScopes p = [p] := by
  induction p with
  | nil => simp [splitScopes]
  | cons c cs ih =>
    have hc : c ≠ ' ' := by
      intro h; exact hp (h ▸ List.mem_cons_self c cs)
    have hcs : ' ' ∉ cs := fun h => hp (List.mem_cons_of_mem c h)
    simp only [splitScopes, if_neg hc, ih hcs]

/-- Splitting is a left inverse of joining on nonempty lists of space-free
pieces. -/
theorem splitScopes_joinScopes (l : List (List Char)) (hne : l ≠ [])
    (hsp : ∀ p ∈ l, ' ' ∉ p) : splitScopes (joinScopes l) = l := by
  induction l with
  | nil => exact absurd rfl hne
  | cons p ps ih =>
    cases ps with
    | nil =>
      simp only [joinScopes]
      exact splitScopes_of_no_space p (hsp p (List.mem_cons_self p []))
    | cons q qs =>
      have hp : ' ' ∉ p := hsp p (List.mem_cons_self p (q :: qs))
      have hps : ∀ r ∈ q :: qs, ' ' ∉ r := fun r hr => hsp r (List.mem_cons_of_mem p hr)
      simp only [joinScopes]
      rw [splitScopes_append_space p _ hp, ih (by simp) hps]

/-- JS `a || b` on an optional string: the left side wins when truthy
(non-`undefined` and non-empty), else the right side. -/
def jsOr (a : Option String) (b : String) : String :=
  if strTruthy a then a.getD "" else b

/-- Modelled from the spec: the external `AccountEntity` constructors
(`AccountEntity.createAccount` from decoded client info,
`AccountEntity.createGenericAccount` from claims alone); the entity records
which constructor built it and from which arguments. -/
inductive AccountEntity
  | fromClientInfo (clientInfo : String) (homeAccountId : String)
      (authority : Authority) (idToken : AuthToken) (oboAssertion : Option String)
  | generic (authority : Authority) (homeAccountId : String)
      (idToken : AuthToken) (oboAssertion : Option String)
  deriving DecidableEq, Repr

/-- Modelled from the spec: `IdTokenEntity.createIdTokenEntity` stores its
arguments verbatim. -/
structure IdTokenEntity where
  homeAccountId : String
  environment : String
  secret : String
  clientId : String
  realm : String
  oboAssertion : Option String
  deriving DecidableEq, Repr

/-- Modelled from the spec: `AccessTokenEntity.createAccessTokenEntity` stores
its arguments verbatim; `target` is the space-delimited scope string,
`expiresOn` and `extendedExpiresOn` are epoch seconds. -/
structure AccessTokenEntity where
  homeAccountId : String
  environment : String
  secret : String
  clientId : String
  realm : String
  target : List Char
  expiresOn : Nat
  extendedExpiresOn : Nat
  tokenType : Option String
  oboAssertion : Option String
  deriving DecidableEq, Repr

/-- Modelled from the spec: `RefreshTokenEntity.createRefreshTokenEntity`
stores its arguments verbatim (`familyId` carries the response `foci`). -/
structure RefreshTokenEntity where
  homeAccountId : String
  environment : String
  secret : String
  clientId : String
  familyId : Option String
  oboAssertion : Option String
  deriving DecidableEq, Repr

/-- Modelled from the spec: `AppMetadataEntity.createAppMetadataEntity`, keyed
by client id and environment, carrying `foci` as `familyId`. -/
structure AppMetadataEntity where
  clientId : String
  environment : String
  familyId : Option String
  deriving DecidableEq, Repr

/-- The `CacheRecord` aggregate of the five optional entities. -/
structure CacheRecord where
  account : Option AccountEntity := none
  idToken : Option IdTokenEntity := none
  accessToken : Option AccessTokenEntity := none
  refreshToken : Option RefreshTokenEntity := none
  appMetadata : Option AppMetadataEntity := none
  deriving DecidableEq, Repr

/-- The library-internal portion of the decoded request state
(`LibraryStateObject`); `ts` is the request timestamp in epoch seconds. -/
structure LibraryStateObject where
  ts : Nat
  deriving DecidableEq, Repr

/-- The decoded request state (`RequestStateObject`): the caller-supplied
portion plus the optional library state. -/
structure RequestStateObject where
  userRequestState : String
  libraryState : Option LibraryStateObject := none
  deriving DecidableEq, Repr

/--
Models `generateAccountEntity(serverTokenResponse, idToken, authority, oboAssertion)`:
ADFS authorities always get a generic account; otherwise an empty
`client_info` under protocol mode `"AAD"` fails with `ClientInfoEmptyError`,
and the account is built from `client_info` when present, generically
otherwise. -/
def generateAccountEntity (serverTokenResponse : ServerAuthorizationTokenResponse)
    (idToken : AuthToken) (authority : Authority) (oboAssertion : Option String)
    (homeAccountIdentifier : String) : Except AuthError AccountEntity :=
  if authority.authorityType = AuthorityType.Adfs then
    .ok (.generic authority homeAccountIdentifier idToken oboAssertion)
  else if !strTruthy serverTokenResponse.client_info && authority.protocolMode == "AAD" then
    .error .clientInfoEmpty
  else if strTruthy serverTokenResponse.client_info then
    .ok (.fromClientInfo (serverTokenResponse.client_info.getD "")
      homeAccountIdentifier authority idToken oboAssertion)
  else
    .ok (.generic authority homeAccountIdentifier idToken oboAssertion)

/--
Models `generateCacheRecord(serverTokenResponse, authority, idTokenObj, libraryState,
requestScopes, oboAssertion)`.  `currentTime` is `TimeUtils.nowSeconds()`;
`homeAccountIdentifier` was derived once per call before this step. -/
def generateCacheRecord (serverTokenResponse : ServerAuthorizationTokenResponse)
    (authority : Authority) (idTokenObj : Option AuthToken)
    (libraryState : Option LibraryStateObject)
    (requestScopes : Option (List (List Char))) (oboAssertion : Option String)
    (clientId : String) (homeAccountIdentifier : String) (currentTime : Nat) :
    Except AuthError CacheRecord :=
  let env := authority.environment
  if env == "" then
    .error .invalidCacheEnvironment
  else
  let idAndAccount : Except AuthError (Option IdTokenEntity × Option AccountEntity) :=
    if strTruthy serverTokenResponse.id_token then
      match idTokenObj with
      | some tok =>
        let idEnt : IdTokenEntity :=
          { homeAccountId := homeAccountIdentifier
            environment := env
            secret := serverTokenResponse.id_token.getD ""
            clientId := clientId
            realm := jsOr tok.claims.tid ""
            oboAssertion := oboAssertion }
        match generateAccountEntity serverTokenResponse tok authority
            oboAssertion homeAccountIdentifier with
        | .error e => .error e
        | .ok acct => .ok (some idEnt, some acct)
      | none => .ok (none, none)
    else
      .ok (none, none)
  match idAndAccount with
  | .error e => .error e
  | .ok (cachedIdToken, cachedAccount) =>
  let cachedAccessToken : Option AccessTokenEntity :=
    if strTruthy serverTokenResponse.access_token then
      let responseScopes :=
        if chTruthy serverTokenResponse.scope then
          ScopeSet.fromString (serverTokenResponse.scope.getD [])
        else
          ScopeSet.ofArray (requestScopes.getD [])
      let timestamp :=
        match libraryState with
        | some ls => ls.ts
        | none => currentTime
      let tokenExpirationSeconds := timestamp + serverTokenResponse.expires_in.getD 0
      let extendedTokenExpirationSeconds :=
        tokenExpirationSeconds + serverTokenResponse.ext_expires_in.getD 0
      some
        { homeAccountId := homeAccountIdentifier
          environment := env
          secret := serverTokenResponse.access_token.getD ""
          clientId := clientId
          realm :=
            match idTokenObj with
            | some tok => jsOr tok.claims.tid ""
            | none => authority.tenant
          target := responseScopes.printScopes
          expiresOn := tokenExpirationSeconds
          extendedExpiresOn := extendedTokenExpirationSeconds
          tokenType := serverTokenResponse.token_type
          oboAssertion := oboAssertion }
    else none
  let cachedRefreshToken : Option RefreshTokenEntity :=
    if strTruthy serverTokenResponse.refresh_token then
      some
        { homeAccountId := homeAccountIdentifier
          environment := env
          secret := serverTokenResponse.refresh_token.getD ""
          clientId := clientId
          familyId := serverTokenResponse.foci
          oboAssertion := oboAssertion }
    else none
  let cachedAppMetadata : Option AppMetadataEntity :=
    if strTruthy serverTokenResponse.foci then
      some { clientId := clientId, environment := env, familyId := serverTokenResponse.foci }
    else none
  .ok
    { account := cachedAccount
      idToken := cachedIdToken
      accessToken := cachedAccessToken
      refreshToken := cachedRefreshToken
      appMetadata := cachedAppMetadata }

/-- Modelled from the spec: the account's public view,
`AccountEntity.getAccountInfo`. -/
structure AccountInfo where
  ofEntity : AccountEntity
  deriving DecidableEq, Repr

/-- Modelled from the spec: project an account entity to its public view. -/
def AccountEntity.getAccountInfo (e : AccountEntity) : AccountInfo := ⟨e⟩

/-- The caller-facing `AuthenticationResult`.  `expiresOn` is `Date | null`
and `extExpiresOn` is `Date | undefined`, both modelled as optional epoch
milliseconds. -/
structure AuthenticationResult where
  uniqueId : String
  tenantId : String
  scopes : List (List Char)
  account : Option AccountInfo
  idToken : String
  idTokenClaims : TokenClaims
  accessToken : String
  fromCache : Bool
  expiresOn : Option Nat
  extExpiresOn : Option Nat
  familyId : String
  tokenType : String
  state : String
  deriving DecidableEq, Repr

/--
Models `ResponseHandler.generateAuthenticationResult(cryptoObj, cacheRecord,
fromTokenCache, idTokenObj, requestState, resourceRequestMethod,
resourceRequestUri)`.  `signPopToken` models the external
`PopTokenGenerator.signPopToken(secret, method, uri)`. -/
def generateAuthenticationResult (signPopToken : String → String → String → String)
    (cacheRecord : CacheRecord) (fromTokenCache : Bool)
    (idTokenObj : Option AuthToken) (requestState : Option RequestStateObject)
    (resourceRequestMethod resourceRequestUri : Option String) :
    Except AuthError AuthenticationResult :=
  let accessTokenPart : Except AuthError (String × List (List Char) × Option Nat × Option Nat) :=
    match cacheRecord.accessToken with
    | some atEntity =>
      if atEntity.tokenType == some "pop" then
        if !strTruthy resourceRequestMethod || !strTruthy resourceRequestUri then
          .error AuthError.resourceRequestParametersRequired
        else
          .ok (signPopToken atEntity.secret (resourceRequestMethod.getD "")
              (resourceRequestUri.getD ""),
            (ScopeSet.fromString atEntity.target).asArray,
            some (atEntity.expiresOn * 1000), some (atEntity.extendedExpiresOn * 1000))
      else
        .ok (atEntity.secret, (ScopeSet.fromString atEntity.target).asArray,
          some (atEntity.expiresOn * 1000), some (atEntity.extendedExpiresOn * 1000))
    | none =>
      .ok (("" : String), ([] : List (List Char)), (none : Option Nat), (none : Option Nat))
  match accessTokenPart with
  | .error e => .error e
  | .ok (accessToken, responseScopes, expiresOn, extExpiresOn) =>
  let familyId :=
    match cacheRecord.appMetadata with
    | some md => if md.familyId == some "1" then "1" else ""
    | none => ""
  let uid := jsOr (idTokenObj.bind (·.claims.oid)) (jsOr (idTokenObj.bind (·.claims.sub)) "")
  let tid := jsOr (idTokenObj.bind (·.claims.tid)) ""
  .ok
    { uniqueId := uid
      tenantId := tid
      scopes := responseScopes
      account := cacheRecord.account.map AccountEntity.getAccountInfo
      idToken := (idTokenObj.map (·.rawToken)).getD ""
      idTokenClaims := (idTokenObj.map (·.claims)).getD {}
      accessToken := accessToken
      fromCache := fromTokenCache
      expiresOn := expiresOn
      extExpiresOn := extExpiresOn
      familyId := familyId
      tokenType := jsOr (cacheRecord.accessToken.bind (·.tokenType)) ""
      state := (requestState.map (·.userRequestState)).getD "" }

/-- Observable events of the commit step: the persistence hooks, the race-guard
store read, and the store-write attempt. -/
inductive CacheEvent
  | beforeCacheAccess
  | getAccount (key : String)
  | saveCacheRecord
  | afterCacheAccess
  deriving DecidableEq, Repr

/-- The external collaborators and ambient state of `handleServerTokenResponse`:
the token parser (`new AuthToken`), home-account-id derivation
(`AccountEntity.generateHomeAccountId`), request-state parsing
(`ProtocolUtils.parseRequestState`), account keys
(`account.generateAccountKey()`), the cache store, the persistence plugin
configuration, the proof-of-possession signer, and the clock.
`saveSucceeds` says whether `cacheStorage.saveCacheRecord` completes or
throws. -/
structure HandlerDeps where
  clientId : String
  parseToken : String → TokenClaims
  generateHomeAccountId : String → AuthorityType → Option AuthToken → String
  parseRequestState : String → RequestStateObject
  generateAccountKey : AccountEntity → String
  getAccount : String → Option AccountEntity
  saveSucceeds : Bool
  hasPersistencePlugin : Bool
  hasSerializableCache : Bool
  signPopToken : String → String → String → String
  currentTime : Nat

/-- The parsed identity token object of `handleServerTokenResponse`:
`new AuthToken(serverTokenResponse.id_token, cryptoObj)` when `id_token` is
truthy, absent otherwise. -/
def mkIdTokenObj (parseToken : String → TokenClaims)
    (serverTokenResponse : ServerAuthorizationTokenResponse) : Option AuthToken :=
  if strTruthy serverTokenResponse.id_token then
    some ⟨serverTokenResponse.id_token.getD "",
      parseToken (serverTokenResponse.id_token.getD "")⟩
  else none

/-- The nonce check of `handleServerTokenResponse`: with an identity token
present and a truthy cached nonce, `idTokenObj.claims.nonce !== cachedNonce`
throws `NonceMismatchError`. -/
def nonceCheckFails (parseToken : String → TokenClaims)
    (serverTokenResponse : ServerAuthorizationTokenResponse)
    (cachedNonce : Option String) : Bool :=
  match mkIdTokenObj parseToken serverTokenResponse with
  | some tok => strTruthy cachedNonce && tok.claims.nonce != some (cachedNonce.getD "")
  | none => false

/-- The decoded request state of `handleServerTokenResponse`:
`ProtocolUtils.parseRequestState(cryptoObj, cachedState)` when `cachedState`
is truthy. -/
def mkRequestStateObj (parseRequestState : String → RequestStateObject)
    (cachedState : Option String) : Option RequestStateObject :=
  if strTruthy cachedState then some (parseRequestState (cachedState.getD ""))
  else none

/--
The commit step of `handleServerTokenResponse` (the `try`/`finally` block,
lines 142–168): persistence hooks, refresh-race guard, and store write.
Returns whether the record was written (`false` = the race-guard no-op)
together with the ordered event trace; the `finally` block is reflected by
the after-access event closing every trace in which the before-access event
occurred. -/
def commitCacheRecord (deps : HandlerDeps) (cacheRecord : CacheRecord)
    (handlingRefreshTokenResponse : Bool) : Except AuthError Bool × List CacheEvent :=
  let persistence := deps.hasPersistencePlugin && deps.hasSerializableCache
  let pre : List CacheEvent := if persistence then [.beforeCacheAccess] else []
  let post : List CacheEvent := if persistence then [.afterCacheAccess] else []
  match (if handlingRefreshTokenResponse then cacheRecord.account else none) with
  | some acct =>
    let key := deps.generateAccountKey acct
    match deps.getAccount key with
    | none => (.ok false, pre ++ ([CacheEvent.getAccount key] ++ post))
    | some _ =>
      if deps.saveSucceeds then
        (.ok true, pre ++ ([CacheEvent.getAccount key, .saveCacheRecord] ++ post))
      else
        (.error .storeWriteFailed, pre ++ ([CacheEvent.getAccount key, .saveCacheRecord] ++ post))
  | none =>
    if deps.saveSucceeds then
      (.ok true, pre ++ ([CacheEvent.saveCacheRecord] ++ post))
    else
      (.error .storeWriteFailed, pre ++ ([CacheEvent.saveCacheRecord] ++ post))

/--
Models `handleServerTokenResponse(serverTokenResponse, authority,
resourceRequestMethod, resourceRequestUri, cachedNonce, cachedState,
requestScopes, oboAssertion, handlingRefreshTokenResponse)`.

Returns the outcome (`null` for the refresh-race no-op, a populated result,
or a thrown error) together with the ordered trace of commit-step events. -/
def handleServerTokenResponse (deps : HandlerDeps)
    (serverTokenResponse : ServerAuthorizationTokenResponse) (authority : Authority)
    (resourceRequestMethod resourceRequestUri cachedNonce cachedState : Option String)
    (requestScopes : Option (List (List Char))) (oboAssertion : Option String)
    (handlingRefreshTokenResponse : Bool) :
    Except AuthError (Option AuthenticationResult) × List CacheEvent :=
  let idTokenObj := mkIdTokenObj deps.parseToken serverTokenResponse
  if nonceCheckFails deps.parseToken serverTokenResponse cachedNonce then
    (.error .nonceMismatch, [])
  else
    let homeAccountIdentifier := deps.generateHomeAccountId
      (serverTokenResponse.client_info.getD "") authority.authorityType idTokenObj
    let requestStateObj := mkRequestStateObj deps.parseRequestState cachedState
    match generateCacheRecord serverTokenResponse authority idTokenObj
        (requestStateObj.bind (·.libraryState)) requestScopes oboAssertion
        deps.clientId homeAccountIdentifier deps.currentTime with
    | .error e => (.error e, [])
    | .ok cacheRecord =>
      match commitCacheRecord deps cacheRecord handlingRefreshTokenResponse with
      | (.error e, trace) => (.error e, trace)
      | (.ok false, trace) => (.ok none, trace)
      | (.ok true, trace) =>
        ((generateAuthenticationResult deps.signPopToken cacheRecord false
          idTokenObj requestStateObj resourceRequestMethod resourceRequestUri).map some,
         trace)

/-- C5 counterexample: an AAD-type authority whose protocol mode is `"OIDC"`
with empty `client_info` yields a generic account, not `ClientInfoEmptyError` —
the empty-client-info failure is gated on `protocolMode === "AAD"`, not on the
authority type. -/
theorem C5_counterexample :
    generateAccountEntity {} ⟨"rawtoken", {}⟩
      ⟨AuthorityType.Aad, "OIDC", "common", "login.example.com"⟩ none "hid"
      = .ok (.generic ⟨AuthorityType.Aad, "OIDC", "common", "login.example.com"⟩
          "hid" ⟨"rawtoken", {}⟩ none) := by
  rfl

/-- C5 (amended): account derivation branches on ADFS authority type and
otherwise on the authority's protocol mode: an ADFS authority always yields a
generic account from claims alone; a non-ADFS authority with empty
`client_info` fails with `ClientInfoEmptyError` exactly when the protocol mode
is `"AAD"` (and yields a generic account otherwise); with non-empty
`client_info` the account is derived from the decoded client info plus
claims. -/
theorem C5_account_derivation_amended
    (serverTokenResponse : ServerAuthorizationTokenResponse) (idToken : AuthToken)
    (authority : Authority) (oboAssertion : Option String)
    (homeAccountIdentifier : String) :
    (authority.authorityType = AuthorityType.Adfs →
      generateAccountEntity serverTokenResponse idToken authority oboAssertion
          homeAccountIdentifier
        = .ok (.generic authority homeAccountIdentifier idToken oboAssertion)) ∧
    (authority.authorityType ≠ AuthorityType.Adfs →
      strTruthy serverTokenResponse.client_info = false →
      authority.protocolMode = "AAD" →
      generateAccountEntity serverTokenResponse idToken authority oboAssertion
          homeAccountIdentifier
        = .error .clientInfoEmpty) ∧
    (authority.authorityType ≠ AuthorityType.Adfs →
      strTruthy serverTokenResponse.client_info = true →
      generateAccountEntity serverTokenResponse idToken authority oboAssertion
          homeAccountIdentifier
        = .ok (.fromClientInfo (serverTokenResponse.client_info.getD "")
            homeAccountIdentifier authority idToken oboAssertion)) ∧
    (authority.authorityType ≠ AuthorityType.Adfs →
      strTruthy serverTokenResponse.client_info = false →
      authority.protocolMode ≠ "AAD" →
      generateAccountEntity serverTokenResponse idToken authority oboAssertion
          homeAccountIdentifier
        = .ok (.generic authority homeAccountIdentifier idToken oboAssertion)) := by
  refine ⟨?_, ?_, ?_, ?_⟩
  · intro h1
    simp [generateAccountEntity, h1]
  · intro h1 h2 h3
    simp [generateAccountEntity, h1, h2, h3]
  · intro h1 h2
    simp [generateAccountEntity, h1, h2]
  · intro h1 h2 h3
    simp [generateAccountEntity, h1, h2, h3]

/-- C5 witness: with an AAD-type authority in protocol mode `"AAD"` and empty
`client_info`, account derivation fails with `ClientInfoEmptyError`. -/
theorem C5_witness :
    generateAccountEntity {} ⟨"rawtoken", {}⟩
      ⟨AuthorityType.Aad, "AAD", "common", "login.example.com"⟩ none "hid"
      = .error .clientInfoEmpty :=
  (C5_account_derivation_amended {} ⟨"rawtoken", {}⟩
      ⟨AuthorityType.Aad, "AAD", "common", "login.example.com"⟩ none "hid").2.1
    (by decide) rfl rfl

/-- C6: the derived access-token record's expiration equals the base
timestamp (the library-state timestamp when present, else the current time)
plus `expires_in`, and its extended expiration additionally adds
`ext_expires_in`, both terms defaulting to 0 when absent. -/
theorem C6_access_token_expiration
    (serverTokenResponse : ServerAuthorizationTokenResponse) (authority : Authority)
    (idTokenObj : Option AuthToken) (libraryState : Option LibraryStateObject)
    (requestScopes : Option (List (List Char))) (oboAssertion : Option String)
    (clientId homeAccountIdentifier : String) (currentTime : Nat) (rec : CacheRecord)
    (hat : strTruthy serverTokenResponse.access_token = true)
    (hrec : generateCacheRecord serverTokenResponse authority idTokenObj libraryState
      requestScopes oboAssertion clientId homeAccountIdentifier currentTime = .ok rec) :
    rec.accessToken.map (·.expiresOn)
      = some ((libraryState.map (·.ts)).getD currentTime
        + serverTokenResponse.expires_in.getD 0) ∧
    rec.accessToken.map (·.extendedExpiresOn)
      = some ((libraryState.map (·.ts)).getD currentTime
        + serverTokenResponse.expires_in.getD 0
        + serverTokenResponse.ext_expires_in.getD 0) := by
  simp only [generateCacheRecord] at hrec
  by_cases henv : authority.environment = ""
  · simp [henv] at hrec
  · simp only [beq_iff_eq, henv, if_false] at hrec
    split at hrec
    · exact absurd hrec (by simp)
    · simp only [Except.ok.injEq] at hrec
      subst hrec
      constructor <;> simp only [hat, if_true] <;> cases libraryState <;> simp

/-- C6 witness: `expires_in = 3600` and `ext_expires_in = 600` with library
state timestamp `1000` yield expiration `4600` and extended expiration
`5200`. -/
theorem C6_witness :
    ((generateCacheRecord
        { access_token := some "at", expires_in := some 3600, ext_expires_in := some 600 }
        ⟨AuthorityType.Aad, "AAD", "common", "login.example.com"⟩
        none (some ⟨1000⟩) none none "cid" "hid" 7).toOption.getD {}).accessToken.map
        (·.expiresOn)
      = some (1000 + 3600) ∧
    ((generateCacheRecord
        { access_token := some "at", expires_in := some 3600, ext_expires_in := some 600 }
        ⟨AuthorityType.Aad, "AAD", "common", "login.example.com"⟩
        none (some ⟨1000⟩) none none "cid" "hid" 7).toOption.getD {}).accessToken.map
        (·.extendedExpiresOn)
      = some (1000 + 3600 + 600) :=
  C6_access_token_expiration
    { access_token := some "at", expires_in := some 3600, ext_expires_in := some 600 }
    ⟨AuthorityType.Aad, "AAD", "common", "login.example.com"⟩
    none (some ⟨1000⟩) none none "cid" "hid" 7
    ((generateCacheRecord
        { access_token := some "at", expires_in := some 3600, ext_expires_in := some 600 }
        ⟨AuthorityType.Aad, "AAD", "common", "login.example.com"⟩
        none (some ⟨1000⟩) none none "cid" "hid" 7).toOption.getD {})
    rfl rfl

/-- C7: for a cache record whose access-token entity has the
proof-of-possession token type, result building fails with
`ResourceRequestParametersRequired` when either resource request parameter is
absent, and with both supplied the result's access token is the signer's
output over the stored secret, method, and URI — never the raw stored
secret. -/
theorem C7_pop_token_signing
    (signPopToken : String → String → String → String) (cacheRecord : CacheRecord)
    (fromTokenCache : Bool) (idTokenObj : Option AuthToken)
    (requestState : Option RequestStateObject)
    (resourceRequestMethod resourceRequestUri : Option String)
    (atEntity : AccessTokenEntity)
    (hat : cacheRecord.accessToken = some atEntity)
    (hpop : atEntity.tokenType = some "pop") :
    ((strTruthy resourceRequestMethod = false ∨ strTruthy resourceRequestUri = false) →
      generateAuthenticationResult signPopToken cacheRecord fromTokenCache idTokenObj
          requestState resourceRequestMethod resourceRequestUri
        = .error .resourceRequestParametersRequired) ∧
    (strTruthy resourceRequestMethod = true → strTruthy resourceRequestUri = true →
      (generateAuthenticationResult signPopToken cacheRecord fromTokenCache idTokenObj
          requestState resourceRequestMethod resourceRequestUri).map (·.accessToken)
        = .ok (signPopToken atEntity.secret (resourceRequestMethod.getD "")
            (resourceRequestUri.getD "")) ∧
      (signPopToken atEntity.secret (resourceRequestMethod.getD "")
          (resourceRequestUri.getD "") ≠ atEntity.secret →
        (generateAuthenticationResult signPopToken cacheRecord fromTokenCache idTokenObj
            requestState resourceRequestMethod resourceRequestUri).map (·.accessToken)
          ≠ .ok atEntity.secret)) := by
  constructor
  · rintro (h | h) <;>
      simp [generateAuthenticationResult, hat, hpop, h]
  · intro hm hu
    constructor
    · simp [generateAuthenticationResult, hat, hpop, hm, hu, Except.map]
    · intro hne
      simp [generateAuthenticationResult, hat, hpop, hm, hu, hne, Except.map]

/-- C7 witness: a proof-of-possession record with both parameters supplied
yields the signer's output as the access token. -/
theorem C7_witness :
    (generateAuthenticationResult (fun s m u => s ++ "|" ++ m ++ "|" ++ u)
        { accessToken := some
            { homeAccountId := "hid", environment := "env",
              secret := "sec", clientId := "cid", realm := "r", target := [],
              expiresOn := 0, extendedExpiresOn := 0, tokenType := some "pop",
              oboAssertion := none } }
        false none none (some "GET") (some "res")).map (·.accessToken)
      = .ok ("sec" ++ "|" ++ "GET" ++ "|" ++ "res") :=
  ((C7_pop_token_signing (fun s m u => s ++ "|" ++ m ++ "|" ++ u)
      { accessToken := some
          { homeAccountId := "hid", environment := "env",
            secret := "sec", clientId := "cid", realm := "r", target := [],
            expiresOn := 0, extendedExpiresOn := 0, tokenType := some "pop",
            oboAssertion := none } }
      false none none (some "GET") (some "res")
      { homeAccountId := "hid", environment := "env",
        secret := "sec", clientId := "cid", realm := "r", target := [],
        expiresOn := 0, extendedExpiresOn := 0, tokenType := some "pop",
        oboAssertion := none }
      rfl rfl).2 rfl rfl).1

/-- C10: for a cache record without an access-token entity, result building
succeeds with an empty access token, empty scopes, a null expiration, no
extended expiration, and an empty token type. -/
theorem C10_result_without_access_token
    (signPopToken : String → String → String → String) (cacheRecord : CacheRecord)
    (fromTokenCache : Bool) (idTokenObj : Option AuthToken)
    (requestState : Option RequestStateObject)
    (resourceRequestMethod resourceRequestUri : Option String)
    (hat : cacheRecord.accessToken = none) :
    (generateAuthenticationResult signPopToken cacheRecord fromTokenCache idTokenObj
        requestState resourceRequestMethod resourceRequestUri).map
        (fun res => (res.accessToken, res.scopes, res.expiresOn, res.extExpiresOn,
          res.tokenType))
      = .ok ("", [], none, none, "") := by
  simp [generateAuthenticationResult, hat, jsOr, strTruthy, Except.map]

/-- C10 witness: the empty cache record yields the all-empty access-token
fields. -/
theorem C10_witness :
    (generateAuthenticationResult (fun s _ _ => s) {} false none none none none).map
        (fun res => (res.accessToken, res.scopes, res.expiresOn, res.extExpiresOn,
          res.tokenType))
      = .ok ("", [], none, none, "") :=
  C10_result_without_access_token (fun s _ _ => s) {} false none none none none rfl

/-- C9: when the response state or the cached state is empty, validation
fails with the state-not-found error naming the missing side (the response
side is checked first); StateMismatch can only arise when both sides are
non-empty and differ after URL-decoding. -/
theorem C9_state_missing_before_mismatch
    (decode : String → String)
    (isIRE : Option String → Option String → Option String → Bool)
    (decodeCI : String → Option ClientInfo)
    (serverResponseHash : ServerAuthorizationCodeResponse) (cachedState : String) :
    (serverResponseHash.state.getD "" = "" →
      validateServerAuthorizationCodeResponse decode isIRE decodeCI serverResponseHash
          cachedState
        = .error (.stateNotFound "Server State")) ∧
    (serverResponseHash.state.getD "" ≠ "" → cachedState = "" →
      validateServerAuthorizationCodeResponse decode isIRE decodeCI serverResponseHash
          cachedState
        = .error (.stateNotFound "Cached State")) ∧
    (validateServerAuthorizationCodeResponse decode isIRE decodeCI serverResponseHash
          cachedState
        = .error .stateMismatch →
      serverResponseHash.state.getD "" ≠ "" ∧ cachedState ≠ "" ∧
        decode (serverResponseHash.state.getD "") ≠ decode cachedState) := by
  refine ⟨?_, ?_, ?_⟩
  · intro h
    simp [validateServerAuthorizationCodeResponse, strTruthy, h]
  · intro hs hc
    simp [validateServerAuthorizationCodeResponse, strTruthy, hs, hc]
  · intro h
    by_cases hs : serverResponseHash.state.getD "" = ""
    · simp [validateServerAuthorizationCodeResponse, strTruthy, hs] at h
    · by_cases hc : cachedState = ""
      · simp [validateServerAuthorizationCodeResponse, strTruthy, hs, hc] at h
      · refine ⟨hs, hc, ?_⟩
        intro hd
        simp [validateServerAuthorizationCodeResponse, strTruthy, hs, hc, hd] at h
        split at h
        all_goals try split at h
        all_goals try split at h
        all_goals simp_all

/-- C9 witness: an absent response state fails naming the server state. -/
theorem C9_witness :
    validateServerAuthorizationCodeResponse id (fun _ _ _ => false) (fun _ => none)
      { state := none } "cached"
      = .error (.stateNotFound "Server State") :=
  (C9_state_missing_before_mismatch id (fun _ _ _ => false) (fun _ => none)
    { state := none } "cached").1 rfl

/-- C3 counterexample: with both states present but URL-decode-unequal and an
error field present, validation fails with StateMismatch — not with the
classified InteractionRequired/ServerError — because the state comparison
throws before the error fields are inspected. -/
theorem C3_counterexample :
    validateServerAuthorizationCodeResponse id (fun _ _ _ => true) (fun _ => none)
      { state := some "a", error := some "access_denied" } "b"
      = .error .stateMismatch := by
  rfl

/-- C3 (amended): with both states present, the error fields are inspected
only after the state comparison also passes: when the states are
URL-decode-equal and `error`/`error_description`/`suberror` is present,
validation fails with the classified error (InteractionRequired when the
classification predicate matches, ServerError otherwise); when the states
differ after decoding, validation fails with StateMismatch even if error
fields are present. -/
theorem C3_error_classification_amended
    (decode : String → String)
    (isIRE : Option String → Option String → Option String → Bool)
    (decodeCI : String → Option ClientInfo)
    (serverResponseHash : ServerAuthorizationCodeResponse) (cachedState : String)
    (hs : serverResponseHash.state.getD "" ≠ "")
    (hc : cachedState ≠ "")
    (herr : (strTruthy serverResponseHash.error
      || strTruthy serverResponseHash.error_description
      || strTruthy serverResponseHash.suberror) = true) :
    (decode (serverResponseHash.state.getD "") = decode cachedState →
      validateServerAuthorizationCodeResponse decode isIRE decodeCI serverResponseHash
          cachedState
        = (if isIRE serverResponseHash.error serverResponseHash.error_description
              serverResponseHash.suberror then
            .error (.interactionRequired (serverResponseHash.error.getD "")
              serverResponseHash.error_description serverResponseHash.suberror)
          else
            .error (.serverError (serverResponseHash.error.getD "")
              serverResponseHash.error_description serverResponseHash.suberror))) ∧
    (decode (serverResponseHash.state.getD "") ≠ decode cachedState →
      validateServerAuthorizationCodeResponse decode isIRE decodeCI serverResponseHash
          cachedState
        = .error .stateMismatch) := by
  constructor
  · intro hd
    simp only [validateServerAuthorizationCodeResponse, strTruthy, hs, hc, hd] at *
    simp only [bne_self_eq_false] at *
    simp [strTruthy, hs, hc, herr]
  · intro hd
    simp [validateServerAuthorizationCodeResponse, strTruthy, hs, hc, hd]

/-- C3 witness: decode-equal states with a non-interaction-required error
field fail with the classified ServerError. -/
theorem C3_witness :
    validateServerAuthorizationCodeResponse id (fun _ _ _ => false) (fun _ => none)
      { state := some "a", error := some "server_busy" } "a"
      = .error (.serverError "server_busy" none none) :=
  (C3_error_classification_amended id (fun _ _ _ => false) (fun _ => none)
    { state := some "a", error := some "server_busy" } "a"
    (by decide) (by decide) rfl).1 rfl

theorem generateAccountEntity_error_eq (serverTokenResponse : ServerAuthorizationTokenResponse)
    (idToken : AuthToken) (authority : Authority) (oboAssertion : Option String)
    (homeAccountIdentifier : String) (e : AuthError)
    (h : generateAccountEntity serverTokenResponse idToken authority oboAssertion
      homeAccountIdentifier = .error e) : e = .clientInfoEmpty := by
  simp only [generateAccountEntity] at h
  split at h
  all_goals try split at h
  all_goals try split at h
  all_goals simp_all

theorem generateCacheRecord_error_kinds (serverTokenResponse : ServerAuthorizationTokenResponse)
    (authority : Authority) (idTokenObj : Option AuthToken)
    (libraryState : Option LibraryStateObject)
    (requestScopes : Option (List (List Char))) (oboAssertion : Option String)
    (clientId homeAccountIdentifier : String) (currentTime : Nat) (e : AuthError)
    (h : generateCacheRecord serverTokenResponse authority idTokenObj libraryState
      requestScopes oboAssertion clientId homeAccountIdentifier currentTime = .error e) :
    e = .invalidCacheEnvironment ∨ e = .clientInfoEmpty := by
  rcases hobj : idTokenObj with _ | tok
  · simp only [generateCacheRecord, hobj] at h
    by_cases henv : authority.environment = ""
    · simp [henv] at h
      exact Or.inl h.symm
    · simp [henv] at h
  · rcases hge : generateAccountEntity serverTokenResponse tok authority
        oboAssertion homeAccountIdentifier with e2 | acct
    · simp only [generateCacheRecord, hobj, hge] at h
      by_cases henv : authority.environment = ""
      · simp [henv] at h
        exact Or.inl h.symm
      · by_cases hidt : strTruthy serverTokenResponse.id_token
        · simp [henv, hidt] at h
          have := generateAccountEntity_error_eq _ _ _ _ _ _ hge
          simp_all
        · simp [henv, hidt] at h
    · simp only [generateCacheRecord, hobj, hge] at h
      by_cases henv : authority.environment = ""
      · simp [henv] at h
        exact Or.inl h.symm
      · by_cases hidt : strTruthy serverTokenResponse.id_token <;>
          simp [henv, hidt] at h

theorem generateAuthenticationResult_error_eq
    (signPopToken : String → String → String → String) (cacheRecord : CacheRecord)
    (fromTokenCache : Bool) (idTokenObj : Option AuthToken)
    (requestState : Option RequestStateObject)
    (resourceRequestMethod resourceRequestUri : Option String) (e : AuthError)
    (h : generateAuthenticationResult signPopToken cacheRecord fromTokenCache idTokenObj
      requestState resourceRequestMethod resourceRequestUri = .error e) :
    e = .resourceRequestParametersRequired := by
  simp only [generateAuthenticationResult] at h
  split at h
  · rename_i e1 heq
    simp only [Except.error.injEq] at h
    subst h
    split at heq
    all_goals try split at heq
    all_goals try split at heq
    all_goals simp_all
  · simp at h

theorem commitCacheRecord_error_eq (deps : HandlerDeps) (cacheRecord : CacheRecord)
    (handlingRefreshTokenResponse : Bool) (e : AuthError) (trace : List CacheEvent)
    (h : commitCacheRecord deps cacheRecord handlingRefreshTokenResponse
      = (.error e, trace)) : e = .storeWriteFailed := by
  simp only [commitCacheRecord] at h
  split at h
  all_goals try split at h
  all_goals try split at h
  all_goals simp_all

theorem handleServerTokenResponse_no_nonce_error (deps : HandlerDeps)
    (serverTokenResponse : ServerAuthorizationTokenResponse) (authority : Authority)
    (resourceRequestMethod resourceRequestUri cachedNonce cachedState : Option String)
    (requestScopes : Option (List (List Char))) (oboAssertion : Option String)
    (handlingRefreshTokenResponse : Bool)
    (hn : nonceCheckFails deps.parseToken serverTokenResponse cachedNonce = false) :
    (handleServerTokenResponse deps serverTokenResponse authority resourceRequestMethod
        resourceRequestUri cachedNonce cachedState requestScopes oboAssertion
        handlingRefreshTokenResponse).1
      ≠ .error .nonceMismatch := by
  intro h
  simp only [handleServerTokenResponse, hn, Bool.false_eq_true, if_false] at h
  split at h
  · rename_i e heq
    simp only [Except.error.injEq] at h
    rcases generateCacheRecord_error_kinds _ _ _ _ _ _ _ _ _ _ heq with h1 | h1 <;>
      simp_all
  · split at h
    · rename_i e tr heq
      simp only [Except.error.injEq] at h
      have := commitCacheRecord_error_eq _ _ _ _ _ heq
      simp_all
    · simp at h
    · rcases hga : generateAuthenticationResult deps.signPopToken _ false
          (mkIdTokenObj deps.parseToken serverTokenResponse)
          (mkRequestStateObj deps.parseRequestState cachedState)
          resourceRequestMethod resourceRequestUri with e2 | r
      · rw [hga] at h
        simp only [Except.map, Except.error.injEq] at h
        have := generateAuthenticationResult_error_eq _ _ _ _ _ _ _ _ hga
        simp_all
      · rw [hga] at h
        simp [Except.map] at h

/-- C4 counterexample: a token response carrying an id_token whose parsed
claims have no nonce, together with a supplied cached nonce, fails with
NonceMismatch — the code compares `claims.nonce !== cachedNonce` and an
absent claims nonce is unequal to any supplied nonce, where the claim says
absence of the claims nonce raises no nonce error. -/
theorem C4_counterexample :
    (handleServerTokenResponse
      { clientId := "cid", parseToken := fun _ => {},
        generateHomeAccountId := fun _ _ _ => "hid",
        parseRequestState := fun s => ⟨s, none⟩,
        generateAccountKey := fun _ => "k", getAccount := fun _ => none,
        saveSucceeds := true, hasPersistencePlugin := false,
        hasSerializableCache := false, signPopToken := fun s _ _ => s,
        currentTime := 0 }
      { id_token := some "hdr.body.sig" }
      ⟨AuthorityType.Aad, "AAD", "common", "login.example.com"⟩
      none none (some "expectednonce") none none none false).1
      = .error .nonceMismatch := by
  rfl

/-- C4 (amended): for a token response carrying an id_token, if a cached
nonce was supplied then processing fails with NonceMismatch exactly when the
parsed claims' nonce does not equal the cached nonce — including when the
claims carry no nonce at all; if no cached nonce was supplied, no nonce error
is raised. -/
theorem C4_nonce_check_amended (deps : HandlerDeps)
    (serverTokenResponse : ServerAuthorizationTokenResponse) (authority : Authority)
    (resourceRequestMethod resourceRequestUri cachedNonce cachedState : Option String)
    (requestScopes : Option (List (List Char))) (oboAssertion : Option String)
    (handlingRefreshTokenResponse : Bool)
    (hid : strTruthy serverTokenResponse.id_token = true) :
    (strTruthy cachedNonce = true →
      (deps.parseToken (serverTokenResponse.id_token.getD "")).nonce
          ≠ some (cachedNonce.getD "") →
      (handleServerTokenResponse deps serverTokenResponse authority resourceRequestMethod
          resourceRequestUri cachedNonce cachedState requestScopes oboAssertion
          handlingRefreshTokenResponse).1
        = .error .nonceMismatch) ∧
    (strTruthy cachedNonce = true →
      (deps.parseToken (serverTokenResponse.id_token.getD "")).nonce
          = some (cachedNonce.getD "") →
      (handleServerTokenResponse deps serverTokenResponse authority resourceRequestMethod
          resourceRequestUri cachedNonce cachedState requestScopes oboAssertion
          handlingRefreshTokenResponse).1
        ≠ .error .nonceMismatch) ∧
    (strTruthy cachedNonce = false →
      (handleServerTokenResponse deps serverTokenResponse authority resourceRequestMethod
          resourceRequestUri cachedNonce cachedState requestScopes oboAssertion
          handlingRefreshTokenResponse).1
        ≠ .error .nonceMismatch) := by
  refine ⟨?_, ?_, ?_⟩
  · intro hn hne
    have hfails : nonceCheckFails deps.parseToken serverTokenResponse cachedNonce = true := by
      simp [nonceCheckFails, mkIdTokenObj, hid, hn, hne]
    simp [handleServerTokenResponse, hfails]
  · intro hn heq
    apply handleServerTokenResponse_no_nonce_error
    simp [nonceCheckFails, mkIdTokenObj, hid, hn, heq]
  · intro hn
    apply handleServerTokenResponse_no_nonce_error
    simp [nonceCheckFails, mkIdTokenObj, hid, hn]

/-- C4 witness: a supplied cached nonce that differs from the claims' nonce
fails with NonceMismatch. -/
theorem C4_witness :
    (handleServerTokenResponse
      { clientId := "cid", parseToken := fun _ => { nonce := some "other" },
        generateHomeAccountId := fun _ _ _ => "hid",
        parseRequestState := fun s => ⟨s, none⟩,
        generateAccountKey := fun _ => "k", getAccount := fun _ => none,
        saveSucceeds := true, hasPersistencePlugin := false,
        hasSerializableCache := false, signPopToken := fun s _ _ => s,
        currentTime := 0 }
      { id_token := some "hdr.body.sig" }
      ⟨AuthorityType.Aad, "AAD", "common", "login.example.com"⟩
      none none (some "cachednonce") none none none false).1
      = .error .nonceMismatch :=
  (C4_nonce_check_amended
    { clientId := "cid", parseToken := fun _ => { nonce := some "other" },
      generateHomeAccountId := fun _ _ _ => "hid",
      parseRequestState := fun s => ⟨s, none⟩,
      generateAccountKey := fun _ => "k", getAccount := fun _ => none,
      saveSucceeds := true, hasPersistencePlugin := false,
      hasSerializableCache := false, signPopToken := fun s _ _ => s,
      currentTime := 0 }
    { id_token := some "hdr.body.sig" }
    ⟨AuthorityType.Aad, "AAD", "common", "login.example.com"⟩
    none none (some "cachednonce") none none none false rfl).1 rfl (by simp)

/-- C2: for every commit-step execution in which the before-access hook ran,
the after-access hook runs exactly once and is the final commit-step event on
every exit path (race-guard no-op, successful write, failed write) — so it
never runs before the write attempt concludes — and the before-access hook is
the first event, preceding the store read and write. -/
theorem C2_after_access_hook (deps : HandlerDeps) (cacheRecord : CacheRecord)
    (handlingRefreshTokenResponse : Bool)
    (hb : CacheEvent.beforeCacheAccess
      ∈ (commitCacheRecord deps cacheRecord handlingRefreshTokenResponse).2) :
    (commitCacheRecord deps cacheRecord handlingRefreshTokenResponse).2.count
        CacheEvent.afterCacheAccess = 1 ∧
    (commitCacheRecord deps cacheRecord handlingRefreshTokenResponse).2.getLast?
        = some CacheEvent.afterCacheAccess ∧
    (commitCacheRecord deps cacheRecord handlingRefreshTokenResponse).2.head?
        = some CacheEvent.beforeCacheAccess := by
  rcases hacc : (if handlingRefreshTokenResponse then cacheRecord.account else none)
    with _ | acct
  · cases hsv : deps.saveSucceeds <;>
      cases hp : deps.hasPersistencePlugin && deps.hasSerializableCache <;>
      simp_all [commitCacheRecord]
  · rcases hget : deps.getAccount (deps.generateAccountKey acct) with _ | found <;>
      cases hsv : deps.saveSucceeds <;>
      cases hp : deps.hasPersistencePlugin && deps.hasSerializableCache <;>
      simp_all [commitCacheRecord]

/-- C2 witness: with the persistence plugin and serializable cache configured,
a plain successful write produces the trace before-access, write,
after-access. -/
theorem C2_witness :
    ((commitCacheRecord
        { clientId := "cid", parseToken := fun _ => {},
          generateHomeAccountId := fun _ _ _ => "hid",
          parseRequestState := fun s => ⟨s, none⟩,
          generateAccountKey := fun _ => "k", getAccount := fun _ => none,
          saveSucceeds := true, hasPersistencePlugin := true,
          hasSerializableCache := true, signPopToken := fun s _ _ => s,
          currentTime := 0 }
        {} false).2.count CacheEvent.afterCacheAccess = 1) ∧
    ((commitCacheRecord
        { clientId := "cid", parseToken := fun _ => {},
          generateHomeAccountId := fun _ _ _ => "hid",
          parseRequestState := fun s => ⟨s, none⟩,
          generateAccountKey := fun _ => "k", getAccount := fun _ => none,
          saveSucceeds := true, hasPersistencePlugin := true,
          hasSerializableCache := true, signPopToken := fun s _ _ => s,
          currentTime := 0 }
        {} false).2.getLast? = some CacheEvent.afterCacheAccess) ∧
    ((commitCacheRecord
        { clientId := "cid", parseToken := fun _ => {},
          generateHomeAccountId := fun _ _ _ => "hid",
          parseRequestState := fun s => ⟨s, none⟩,
          generateAccountKey := fun _ => "k", getAccount := fun _ => none,
          saveSucceeds := true, hasPersistencePlugin := true,
          hasSerializableCache := true, signPopToken := fun s _ _ => s,
          currentTime := 0 }
        {} false).2.head? = some CacheEvent.beforeCacheAccess) :=
  C2_after_access_hook
    { clientId := "cid", parseToken := fun _ => {},
      generateHomeAccountId := fun _ _ _ => "hid",
      parseRequestState := fun s => ⟨s, none⟩,
      generateAccountKey := fun _ => "k", getAccount := fun _ => none,
      saveSucceeds := true, hasPersistencePlugin := true,
      hasSerializableCache := true, signPopToken := fun s _ _ => s,
      currentTime := 0 }
    {} false (by decide)

/-- C1: the refresh-race guard: for a silent-refresh commit
(`handlingRefreshTokenResponse = true`) whose derived cache record carries an
account, if the account's key is absent from the store the pipeline performs
no store write and returns the deliberate no-op outcome (`null`, neither an
error nor a result); if the key is present (and the write succeeds), the
record is written and the populated result is returned. -/
theorem C1_refresh_race_guard (deps : HandlerDeps)
    (serverTokenResponse : ServerAuthorizationTokenResponse) (authority : Authority)
    (resourceRequestMethod resourceRequestUri cachedNonce cachedState : Option String)
    (requestScopes : Option (List (List Char))) (oboAssertion : Option String)
    (rec : CacheRecord) (acct : AccountEntity)
    (hn : nonceCheckFails deps.parseToken serverTokenResponse cachedNonce = false)
    (hrec : generateCacheRecord serverTokenResponse authority
        (mkIdTokenObj deps.parseToken serverTokenResponse)
        ((mkRequestStateObj deps.parseRequestState cachedState).bind (·.libraryState))
        requestScopes oboAssertion deps.clientId
        (deps.generateHomeAccountId (serverTokenResponse.client_info.getD "")
          authority.authorityType (mkIdTokenObj deps.parseToken serverTokenResponse))
        deps.currentTime = .ok rec)
    (hacct : rec.account = some acct) :
    (deps.getAccount (deps.generateAccountKey acct) = none →
      (handleServerTokenResponse deps serverTokenResponse authority
          resourceRequestMethod resourceRequestUri cachedNonce cachedState
          requestScopes oboAssertion true).1 = .ok none ∧
      CacheEvent.saveCacheRecord ∉
        (handleServerTokenResponse deps serverTokenResponse authority
          resourceRequestMethod resourceRequestUri cachedNonce cachedState
          requestScopes oboAssertion true).2) ∧
    ((deps.getAccount (deps.generateAccountKey acct)).isSome = true →
      deps.saveSucceeds = true →
      (handleServerTokenResponse deps serverTokenResponse authority
          resourceRequestMethod resourceRequestUri cachedNonce cachedState
          requestScopes oboAssertion true).1
        = (generateAuthenticationResult deps.signPopToken rec false
            (mkIdTokenObj deps.parseToken serverTokenResponse)
            (mkRequestStateObj deps.parseRequestState cachedState)
            resourceRequestMethod resourceRequestUri).map some ∧
      CacheEvent.saveCacheRecord ∈
        (handleServerTokenResponse deps serverTokenResponse authority
          resourceRequestMethod resourceRequestUri cachedNonce cachedState
          requestScopes oboAssertion true).2) := by
  have hmain : handleServerTokenResponse deps serverTokenResponse authority
      resourceRequestMethod resourceRequestUri cachedNonce cachedState
      requestScopes oboAssertion true
      = (match commitCacheRecord deps rec true with
        | (.error e, trace) => (.error e, trace)
        | (.ok false, trace) => (.ok none, trace)
        | (.ok true, trace) =>
          ((generateAuthenticationResult deps.signPopToken rec false
            (mkIdTokenObj deps.parseToken serverTokenResponse)
            (mkRequestStateObj deps.parseRequestState cachedState)
            resourceRequestMethod resourceRequestUri).map some, trace)) := by
    simp only [handleServerTokenResponse, hn, Bool.false_eq_true, if_false, hrec]
  constructor
  · intro hget
    rw [hmain]
    simp only [commitCacheRecord, if_true, hacct, hget]
    cases hp : deps.hasPersistencePlugin && deps.hasSerializableCache <;> simp [hp]
  · intro hget hsv
    rcases hg2 : deps.getAccount (deps.generateAccountKey acct) with _ | found
    · rw [hg2] at hget
      simp at hget
    · rw [hmain]
      simp only [commitCacheRecord, if_true, hacct, hg2, hsv]
      cases hp : deps.hasPersistencePlugin && deps.hasSerializableCache <;> simp [hp]

/-- C1 witness: a concrete silent refresh whose derived account is absent from
the store returns the no-op outcome without a write event. -/
theorem C1_witness :
    (handleServerTokenResponse
        { clientId := "cid", parseToken := fun _ => {},
          generateHomeAccountId := fun _ _ _ => "hid",
          parseRequestState := fun s => ⟨s, none⟩,
          generateAccountKey := fun _ => "key1", getAccount := fun _ => none,
          saveSucceeds := true, hasPersistencePlugin := false,
          hasSerializableCache := false, signPopToken := fun s _ _ => s,
          currentTime := 0 }
        { id_token := some "t", client_info := some "ci" }
        ⟨AuthorityType.Aad, "AAD", "common", "env"⟩
        none none none none none none true).1 = .ok none ∧
    CacheEvent.saveCacheRecord ∉
      (handleServerTokenResponse
        { clientId := "cid", parseToken := fun _ => {},
          generateHomeAccountId := fun _ _ _ => "hid",
          parseRequestState := fun s => ⟨s, none⟩,
          generateAccountKey := fun _ => "key1", getAccount := fun _ => none,
          saveSucceeds := true, hasPersistencePlugin := false,
          hasSerializableCache := false, signPopToken := fun s _ _ => s,
          currentTime := 0 }
        { id_token := some "t", client_info := some "ci" }
        ⟨AuthorityType.Aad, "AAD", "common", "env"⟩
        none none none none none none true).2 :=
  (C1_refresh_race_guard
    { clientId := "cid", parseToken := fun _ => {},
      generateHomeAccountId := fun _ _ _ => "hid",
      parseRequestState := fun s => ⟨s, none⟩,
      generateAccountKey := fun _ => "key1", getAccount := fun _ => none,
      saveSucceeds := true, hasPersistencePlugin := false,
      hasSerializableCache := false, signPopToken := fun s _ _ => s,
      currentTime := 0 }
    { id_token := some "t", client_info := some "ci" }
    ⟨AuthorityType.Aad, "AAD", "common", "env"⟩
    none none none none none none
    { account := some (.fromClientInfo "ci" "hid"
        ⟨AuthorityType.Aad, "AAD", "common", "env"⟩ ⟨"t", {}⟩ none),
      idToken := some
        { homeAccountId := "hid", environment := "env",
          secret := "t", clientId := "cid", realm := "", oboAssertion := none } }
    (.fromClientInfo "ci" "hid" ⟨AuthorityType.Aad, "AAD", "common", "env"⟩
      ⟨"t", {}⟩ none)
    rfl rfl rfl).1 rfl

/-- Splitting a joined split is idempotent: round-tripping a scope string
through split and join preserves its splitting. -/
theorem splitScopes_joinScopes_splitScopes (s : List Char) :
    splitScopes (joinScopes (splitScopes s)) = splitScopes s :=
  splitScopes_joinScopes (splitScopes s) (splitScopes_ne_nil s)
    (mem_splitScopes_no_space s)

/-- The raw token of the parsed identity-token object is the response's
`id_token` (empty when absent). -/
theorem mkIdTokenObj_rawToken (parseToken : String → TokenClaims)
    (serverTokenResponse : ServerAuthorizationTokenResponse) :
    ((mkIdTokenObj parseToken serverTokenResponse).map (·.rawToken)).getD ""
      = serverTokenResponse.id_token.getD "" := by
  by_cases h : strTruthy serverTokenResponse.id_token = true
  · simp [mkIdTokenObj, h]
  · have h2 : serverTokenResponse.id_token.getD "" = "" := by
      simpa [strTruthy] using h
    simp [mkIdTokenObj, h, h2]

/-- The derived access-token record's stored scope string is the printed form
of the response scopes (the response's own scope field when truthy, else the
request scopes). -/
theorem generateCacheRecord_target (serverTokenResponse : ServerAuthorizationTokenResponse)
    (authority : Authority) (idTokenObj : Option AuthToken)
    (libraryState : Option LibraryStateObject)
    (requestScopes : Option (List (List Char))) (oboAssertion : Option String)
    (clientId homeAccountIdentifier : String) (currentTime : Nat) (rec : CacheRecord)
    (hat : strTruthy serverTokenResponse.access_token = true)
    (hrec : generateCacheRecord serverTokenResponse authority idTokenObj libraryState
      requestScopes oboAssertion clientId homeAccountIdentifier currentTime = .ok rec) :
    rec.accessToken.map (·.target)
      = some ((if chTruthy serverTokenResponse.scope then
          ScopeSet.fromString (serverTokenResponse.scope.getD [])
        else ScopeSet.ofArray (requestScopes.getD [])).printScopes) := by
  simp only [generateCacheRecord] at hrec
  by_cases henv : authority.environment = ""
  · simp [henv] at hrec
  · simp only [beq_iff_eq, henv, if_false] at hrec
    split at hrec
    · exact absurd hrec (by simp)
    · simp only [Except.ok.injEq] at hrec
      subst hrec
      simp only [hat, if_true]
      rfl

/-- Inverting a populated pipeline outcome: the cache record assembly
succeeded and the result builder produced the returned result from that
record. -/
theorem handleServerTokenResponse_ok_some (deps : HandlerDeps)
    (serverTokenResponse : ServerAuthorizationTokenResponse) (authority : Authority)
    (resourceRequestMethod resourceRequestUri cachedNonce cachedState : Option String)
    (requestScopes : Option (List (List Char))) (oboAssertion : Option String)
    (handlingRefreshTokenResponse : Bool) (res : AuthenticationResult)
    (h : (handleServerTokenResponse deps serverTokenResponse authority
        resourceRequestMethod resourceRequestUri cachedNonce cachedState
        requestScopes oboAssertion handlingRefreshTokenResponse).1 = .ok (some res)) :
    ∃ rec, generateCacheRecord serverTokenResponse authority
        (mkIdTokenObj deps.parseToken serverTokenResponse)
        ((mkRequestStateObj deps.parseRequestState cachedState).bind (·.libraryState))
        requestScopes oboAssertion deps.clientId
        (deps.generateHomeAccountId (serverTokenResponse.client_info.getD "")
          authority.authorityType (mkIdTokenObj deps.parseToken serverTokenResponse))
        deps.currentTime = .ok rec ∧
      generateAuthenticationResult deps.signPopToken rec false
        (mkIdTokenObj deps.parseToken serverTokenResponse)
        (mkRequestStateObj deps.parseRequestState cachedState)
        resourceRequestMethod resourceRequestUri = .ok res := by
  cases hn : nonceCheckFails deps.parseToken serverTokenResponse cachedNonce
  · simp only [handleServerTokenResponse, hn, Bool.false_eq_true, if_false] at h
    rcases hrec : generateCacheRecord serverTokenResponse authority
        (mkIdTokenObj deps.parseToken serverTokenResponse)
        ((mkRequestStateObj deps.parseRequestState cachedState).bind (·.libraryState))
        requestScopes oboAssertion deps.clientId
        (deps.generateHomeAccountId (serverTokenResponse.client_info.getD "")
          authority.authorityType (mkIdTokenObj deps.parseToken serverTokenResponse))
        deps.currentTime with e | rec
    · rw [hrec] at h
      simp at h
    · simp only [hrec] at h
      rcases hcom : commitCacheRecord deps rec handlingRefreshTokenResponse
        with ⟨out, trace⟩
      rw [hcom] at h
      rcases out with e | b
      · simp at h
      · cases b
        · simp at h
        · rcases hga : generateAuthenticationResult deps.signPopToken rec false
              (mkIdTokenObj deps.parseToken serverTokenResponse)
              (mkRequestStateObj deps.parseRequestState cachedState)
              resourceRequestMethod resourceRequestUri with e2 | r
          · rw [hga] at h
            simp [Except.map] at h
          · rw [hga] at h
            simp only [Except.map, Except.ok.injEq, Option.some.injEq] at h
            subst h
            exact ⟨rec, rfl, hga⟩
  · simp [handleServerTokenResponse, hn] at h

/-- C8: a populated pipeline outcome built from a response with a non-empty
access token reproduces the raw identity token verbatim and the response's
scopes as an ordered sequence — the response's own scope field split on
spaces when present, else the original request's scopes. -/
theorem C8_scope_idtoken_round_trip (deps : HandlerDeps)
    (serverTokenResponse : ServerAuthorizationTokenResponse) (authority : Authority)
    (resourceRequestMethod resourceRequestUri cachedNonce cachedState : Option String)
    (requestScopes : Option (List (List Char))) (oboAssertion : Option String)
    (handlingRefreshTokenResponse : Bool) (res : AuthenticationResult)
    (h : (handleServerTokenResponse deps serverTokenResponse authority
        resourceRequestMethod resourceRequestUri cachedNonce cachedState
        requestScopes oboAssertion handlingRefreshTokenResponse).1 = .ok (some res))
    (hat : strTruthy serverTokenResponse.access_token = true) :
    res.idToken = serverTokenResponse.id_token.getD "" ∧
    (chTruthy serverTokenResponse.scope = true →
      res.scopes = splitScopes (serverTokenResponse.scope.getD [])) ∧
    (chTruthy serverTokenResponse.scope = false →
      requestScopes.getD [] ≠ [] →
      (∀ p ∈ requestScopes.getD [], ' ' ∉ p) →
      res.scopes = requestScopes.getD []) := by
  obtain ⟨rec, hrec, hres⟩ := handleServerTokenResponse_ok_some deps
    serverTokenResponse authority resourceRequestMethod resourceRequestUri
    cachedNonce cachedState requestScopes oboAssertion
    handlingRefreshTokenResponse res h
  have htarget := generateCacheRecord_target serverTokenResponse authority
    (mkIdTokenObj deps.parseToken serverTokenResponse)
    ((mkRequestStateObj deps.parseRequestState cachedState).bind (·.libraryState))
    requestScopes oboAssertion deps.clientId
    (deps.generateHomeAccountId (serverTokenResponse.client_info.getD "")
      authority.authorityType (mkIdTokenObj deps.parseToken serverTokenResponse))
    deps.currentTime rec hat hrec
  rcases hat2 : rec.accessToken with _ | atEnt
  · rw [hat2] at htarget
    simp at htarget
  · rw [hat2] at htarget
    replace htarget : atEnt.target
        = (if chTruthy serverTokenResponse.scope then
            ScopeSet.fromString (serverTokenResponse.scope.getD [])
          else ScopeSet.ofArray (requestScopes.getD [])).printScopes := by
      simpa using htarget
    have hfields : res.idToken
        = ((mkIdTokenObj deps.parseToken serverTokenResponse).map (·.rawToken)).getD ""
        ∧ res.scopes = (ScopeSet.fromString atEnt.target).asArray := by
      by_cases hpop : (atEnt.tokenType == some "pop") = true
      · by_cases hmu : (!strTruthy resourceRequestMethod
            || !strTruthy resourceRequestUri) = true
        · simp [generateAuthenticationResult, hat2, hpop, hmu] at hres
        · simp only [generateAuthenticationResult, hat2, hpop, hmu,
            Bool.false_eq_true, if_false, if_true, Except.ok.injEq] at hres
          subst hres
          exact ⟨rfl, rfl⟩
      · simp only [generateAuthenticationResult, hat2, hpop,
          Bool.false_eq_true, if_false, Except.ok.injEq] at hres
        subst hres
        exact ⟨rfl, rfl⟩
    refine ⟨?_, ?_, ?_⟩
    · rw [hfields.1, mkIdTokenObj_rawToken]
    · intro hsc
      rw [hfields.2, htarget]
      simp only [hsc, if_true, ScopeSet.fromString, ScopeSet.printScopes,
        ScopeSet.asArray]
      exact splitScopes_joinScopes_splitScopes _
    · intro hsc hne hsp
      rw [hfields.2, htarget]
      simp only [hsc, Bool.false_eq_true, if_false, ScopeSet.ofArray,
        ScopeSet.fromString, ScopeSet.printScopes, ScopeSet.asArray]
      exact splitScopes_joinScopes _ hne hsp

/-- C8 witness: a concrete populated outcome reproduces the scope string
split on spaces and the raw identity token. -/
theorem C8_witness :
    (((handleServerTokenResponse
        { clientId := "cid", parseToken := fun _ => {},
          generateHomeAccountId := fun _ _ _ => "hid",
          parseRequestState := fun s => ⟨s, none⟩,
          generateAccountKey := fun _ => "k", getAccount := fun _ => none,
          saveSucceeds := true, hasPersistencePlugin := false,
          hasSerializableCache := false, signPopToken := fun s _ _ => s,
          currentTime := 0 }
        { access_token := some "at", id_token := some "tok",
          client_info := some "ci", scope := some ['a', ' ', 'b'] }
        ⟨AuthorityType.Aad, "AAD", "common", "env"⟩
        none none none none none none false).1.toOption.getD none).getD
      { uniqueId := "", tenantId := "", scopes := [], account := none,
        idToken := "", idTokenClaims := {}, accessToken := "",
        fromCache := false, expiresOn := none, extExpiresOn := none,
        familyId := "", tokenType := "", state := "" }).scopes
      = splitScopes ['a', ' ', 'b'] :=
  (C8_scope_idtoken_round_trip
    { clientId := "cid", parseToken := fun _ => {},
      generateHomeAccountId := fun _ _ _ => "hid",
      parseRequestState := fun s => ⟨s, none⟩,
      generateAccountKey := fun _ => "k", getAccount := fun _ => none,
      saveSucceeds := true, hasPersistencePlugin := false,
      hasSerializableCache := false, signPopToken := fun s _ _ => s,
      currentTime := 0 }
    { access_token := some "at", id_token := some "tok",
      client_info := some "ci", scope := some ['a', ' ', 'b'] }
    ⟨AuthorityType.Aad, "AAD", "common", "env"⟩
    none none none none none none false
    (((handleServerTokenResponse
        { clientId := "cid", parseToken := fun _ => {},
          generateHomeAccountId := fun _ _ _ => "hid",
          parseRequestState := fun s => ⟨s, none⟩,
          generateAccountKey := fun _ => "k", getAccount := fun _ => none,
          saveSucceeds := true, hasPersistencePlugin := false,
          hasSerializableCache := false, signPopToken := fun s _ _ => s,
          currentTime := 0 }
        { access_token := some "at", id_token := some "tok",
          client_info := some "ci", scope := some ['a', ' ', 'b'] }
        ⟨AuthorityType.Aad, "AAD", "common", "env"⟩
        none none none none none none false).1.toOption.getD none).getD
      { uniqueId := "", tenantId := "", scopes := [], account := none,
        idToken := "", idTokenClaims := {}, accessToken := "",
        fromCache := false, expiresOn := none, extExpiresOn := none,
        familyId := "", tokenType := "", state := "" })
    rfl rfl).2.1 rfl

end MsalResponse
